import Mathlib

/-!
Shallow embedding of the Tanda SDK core (TypeScript sources):
configuration validation, the authenticated `call` pipeline with its error
normalization, the C2B request construction and response-to-`TandaFunding`
mapping, and the carrier-classification helper. Each definition is a direct
translation of the corresponding source function; asynchronous transport
outcomes are passed in explicitly as a `TransportOutcome` value.
-/

/-! ## Configuration (src/validators ConfigSchema, src/config/client.ts) -/

/-- Deployment mode enum of the zod `ConfigSchema` (`z.enum(["uat", "live"])`). -/
inductive Mode where
  | uat
  | live
deriving DecidableEq, Repr

/-- A merged raw configuration as fed to `ConfigSchema.parse` at construction
time (after `getDefaultConfig` merged caller fields over environment
defaults). The `mode` string is still unvalidated; `debug` may be absent. -/
structure RawConfig where
  mode : String
  clientId : String
  clientSecret : String
  debug : Option Bool
deriving DecidableEq, Repr

/-- Validated configuration, the output type of `ConfigSchema.parse`. -/
structure IConfig where
  mode : Mode
  clientId : String
  clientSecret : String
  debug : Bool
deriving DecidableEq, Repr

/-- The `z.enum(["uat", "live"])` check of `ConfigSchema`. -/
def modeOfString (s : String) : Option Mode :=
  if s = "uat" then some Mode.uat
  else if s = "live" then some Mode.live
  else none

/-- `ConfigSchema.parse`: zod validation of the merged configuration.
`mode` must be one of the two enum values, `clientId` and `clientSecret`
must have length at least 5, `debug` is optional and defaults to `false`.
On violation parsing throws; modelled as `Except.error` carrying the zod
message of a failed check. -/
def ConfigSchema.parse (raw : RawConfig) : Except String IConfig :=
  match modeOfString raw.mode with
  | none => Except.error "Invalid enum value"
  | some m =>
    if raw.clientId.length < 5 then Except.error "Client ID is requred"
    else if raw.clientSecret.length < 5 then Except.error "Client Secret is required"
    else Except.ok { mode := m, clientId := raw.clientId,
                     clientSecret := raw.clientSecret,
                     debug := raw.debug.getD false }

/-- A network side effect issued by the client. `tokenFetch` is the
`generateAccessToken` POST to `accounts/v1/oauth/token` with HTTP Basic
credentials. -/
inductive NetworkCall where
  | tokenFetch (username : String) (password : String)
deriving DecidableEq, Repr

/-- State of a freshly constructed `TandaClient`: validated config and the
(initially unset) access token. -/
structure TandaClientState where
  config : IConfig
  accessToken : Option String
deriving DecidableEq, Repr

/-- The `TandaClient` constructor: parses the merged configuration with
`ConfigSchema.parse` (throwing on failure, before the axios instance is
created), then fires the background `generateAccessToken` call. The list
records the network calls issued during construction, in order; a failed
parse aborts construction with no network call issued. -/
def TandaClient.construct (raw : RawConfig) :
    List NetworkCall × Except String TandaClientState :=
  match ConfigSchema.parse raw with
  | Except.error e => ([], Except.error e)
  | Except.ok cfg =>
      ([NetworkCall.tokenFetch cfg.clientId cfg.clientSecret],
       Except.ok { config := cfg, accessToken := none })

/-! ## Exception type (src/exceptions BaseTandaException) -/

/-- `BaseTandaException extends Error`. The source constructor is
`constructor(message: string, code: number, options?)` and its body is only
`super(message, options)`: the `code` argument is never assigned to any
field of the instance. `message` is the stored `Error.message`; `codeArg`
records the number that was passed to the constructor (it exists only as a
constructor argument in the source, not as a property of the built
object — see `BaseTandaException.codeProp`). -/
structure BaseTandaException where
  message : String
  codeArg : Nat
deriving DecidableEq, Repr

/-- Constructor call `new BaseTandaException(message, code)`. -/
def BaseTandaException.make (message : String) (code : Nat) : BaseTandaException :=
  { message := message, codeArg := code }

/-- JavaScript property access `error.code` on a `BaseTandaException`
instance. The constructor never assigns the `code` argument to a field, and
`Error` has no `code` property, so the access always yields `undefined`. -/
def BaseTandaException.codeProp (_ : BaseTandaException) : Option String :=
  none

/-! ## Authenticated call (src/client/tanda.ts) -/

/-- The axios `validateStatus` configured in the constructor:
`(status) => status >= 200 && status <= 500`. Statuses in this range
resolve; statuses outside it make axios reject with `error.response` set. -/
def validateStatus (status : Nat) : Bool :=
  (200 ≤ status) && (status ≤ 500)

/-- The fields of an axios rejection object that `handleError` reads:
`error.response` (with its `status` and the `message` field the code
dereferences on it), `error.request` presence, and `error.message`. -/
structure ErrResponseView where
  status : Nat
  message : String
deriving DecidableEq, Repr

/-- An axios error as consumed by `handleError`. -/
structure AxiosErrorView where
  response : Option ErrResponseView
  hasRequest : Bool
  message : String
deriving DecidableEq, Repr

/-- `TandaClient.handleError`: converts an axios error into the
`BaseTandaException` that is thrown. `error.response` present → message
embeds the upstream message with the upstream status as constructor code;
otherwise `error.request` present → "Tanda APIs: Gateway Timeout" with 504;
otherwise → message embeds the local error message with 500. It never
returns normally (return type `never`); modelled as returning the thrown
exception. -/
def TandaClient.handleError (error : AxiosErrorView) : BaseTandaException :=
  match error.response with
  | some r => BaseTandaException.make ("Tanda APIs Error: " ++ r.message) r.status
  | none =>
      if error.hasRequest then BaseTandaException.make "Tanda APIs: Gateway Timeout" 504
      else BaseTandaException.make ("Tanda APIs: " ++ error.message) 500

/-- Outcome of one transport interaction for a dispatched request, supplied
by the environment: a response with an HTTP status arrived (with the
decoded data of type `T`, and the `message` field `handleError` would read
on `error.response` if axios rejects), or the request was sent but nothing
came back, or the request could not be constructed/sent at all. -/
inductive TransportOutcome (T : Type) where
  | response (status : Nat) (errMessage : String) (data : T)
  | noResponse
  | notSent (localMessage : String)

/-- Outcomes on which axios rejects and `call` therefore raises: a response
with a status outside the accepted `validateStatus` range, no response, or
an unsendable request. -/
def TransportOutcome.isFailure {T : Type} : TransportOutcome T → Bool
  | TransportOutcome.response status _ _ => !(validateStatus status)
  | TransportOutcome.noResponse => true
  | TransportOutcome.notSent _ => true

/-- JavaScript truthiness of the `accessToken` field (`string | null |
undefined`) as tested by `this.accessToken && {...}` in `call`: `null`,
`undefined` and the empty string are falsy. -/
def tokenTruthy : Option String → Bool
  | some t => !(t == "")
  | none => false

/-- Setting a key of a JavaScript object-literal spread: any earlier
binding of the key is overridden, the new binding comes last. -/
def setHeader (headers : List (String × String)) (key value : String) :
    List (String × String) :=
  headers.filter (fun p => p.1 != key) ++ [(key, value)]

/-- The header object built by `call`:
`{...options.headers, ...(this.accessToken && {Authorization: ...})}`.
When the token is truthy the spread adds an `Authorization: Bearer <token>`
entry; when it is falsy the spread of a falsy value adds nothing. -/
def buildHeaders (callerHeaders : List (String × String))
    (accessToken : Option String) : List (String × String) :=
  match accessToken with
  | some t =>
      if t = "" then callerHeaders
      else setHeader callerHeaders "Authorization" ("Bearer " ++ t)
  | none => callerHeaders

/-- The request that `call` hands to `this.client.request`. -/
structure DispatchedRequest where
  url : String
  method : String
  headers : List (String × String)
deriving DecidableEq, Repr

/-- `TandaClient.call<T>(url, options, method)`: merges the caller options
with the conditional `Authorization` header and dispatches; on an axios
resolution (status accepted by `validateStatus`) returns `response.data`;
on a rejection, `handleError` converts the axios error and the resulting
`BaseTandaException` is thrown (`Except.error`). The dispatched request is
returned alongside so that theorems can speak about what was sent. -/
def TandaClient.call (T : Type) (accessToken : Option String) (url : String)
    (callerHeaders : List (String × String)) (method : String)
    (outcome : TransportOutcome T) :
    DispatchedRequest × Except BaseTandaException T :=
  let req : DispatchedRequest :=
    { url := url, method := method, headers := buildHeaders callerHeaders accessToken }
  (req,
    match outcome with
    | TransportOutcome.response status errMessage data =>
        if validateStatus status then Except.ok data
        else Except.error (TandaClient.handleError
          { response := some { status := status, message := errMessage },
            hasRequest := true, message := "" })
    | TransportOutcome.noResponse =>
        Except.error (TandaClient.handleError
          { response := none, hasRequest := true, message := "" })
    | TransportOutcome.notSent localMessage =>
        Except.error (TandaClient.handleError
          { response := none, hasRequest := false, message := localMessage }))

/-! ## C2B request (src/requests/c2b.ts, src/types/tanda.models.ts) -/

/-- `Tanda.Models.IB2CRequest`: input of `C2B.request`. -/
structure IB2CRequest where
  serviceProviderId : String
  merchantWallet : String
  mobileNumber : String
  amount : String
deriving DecidableEq, Repr

/-- One `{id, label, value}` parameter of the wire payload. -/
structure Param where
  id : String
  label : String
  value : String
deriving DecidableEq, Repr

/-- `Tanda.Models.IC2BRequestPayload`: the wire payload of a C2B request. -/
structure IC2BRequestPayload where
  commandId : String
  serviceProviderId : String
  requestParameters : List Param
  referenceParameters : List Param
  reference : String
deriving DecidableEq, Repr

/-- `Tanda.Models.TandaAPIResponse`: decoded upstream response body. -/
structure TandaAPIResponse where
  status : String
  message : String
  id : Option String
deriving DecidableEq, Repr

/-- `Tanda.Models.TandaFunding`: the funding result record. Nullable
string fields are `Option String` (`none` covers both `null` and an
`undefined` assignment). -/
structure TandaFunding where
  fundReference : String
  serviceProvider : String
  accountNumber : String
  amount : String
  jsonResponse : Option String
  transactionId : Option String
  responseStatus : Option String
  responseMessage : Option String
deriving DecidableEq, Repr

/-- `JSON.stringify` escaping for one character (the quote and backslash
cases; control-character escapes are not exercised by this development). -/
def jsonEscapeChar (c : Char) : String :=
  if c = '"' then "\\\""
  else if c = '\\' then "\\\\"
  else String.singleton c

/-- `JSON.stringify` escaping of a string value. -/
def jsonEscape (s : String) : String :=
  String.join (s.data.map jsonEscapeChar)

/-- `JSON.stringify(response)` for a `TandaAPIResponse`: serializes the
`status` and `message` keys and the `id` key when present. -/
def TandaAPIResponse.stringify (r : TandaAPIResponse) : String :=
  "\x7b\"status\":\"" ++ jsonEscape r.status ++ "\",\"message\":\"" ++
    jsonEscape r.message ++ "\"" ++
    (match r.id with
     | some i => ",\"id\":\"" ++ jsonEscape i ++ "\""
     | none => "") ++ "\x7d"

/-- The wire payload literal built at the top of `C2B.request`. -/
def C2B.buildPayload (resultUrl : String) (reference : String)
    (input : IB2CRequest) : IC2BRequestPayload :=
  { commandId := "CustomerPayment",
    serviceProviderId := input.serviceProviderId,
    requestParameters :=
      [ { id := "merchantWallet", label := "merchantWallet", value := input.merchantWallet },
        { id := "accountNumber", label := "accountNumber", value := input.mobileNumber },
        { id := "amount", label := "amount", value := input.amount } ],
    referenceParameters :=
      [ { id := "resultUrl", label := "resultUrl", value := resultUrl } ],
    reference := reference }

/-- The `funding` object as initialized in `C2B.request` before the call:
identity fields from the generated reference and the input, all response
fields null. -/
def C2B.initFunding (reference : String) (input : IB2CRequest) : TandaFunding :=
  { fundReference := reference,
    serviceProvider := input.serviceProviderId,
    accountNumber := input.mobileNumber,
    amount := input.amount,
    jsonResponse := none,
    transactionId := none,
    responseMessage := none,
    responseStatus := none }

/-- The try/catch tail of `C2B.request`. On a resolved call the
`Object.assign` sets `jsonResponse`, `responseStatus`, `responseMessage`
from the response and `transactionId` to `response.id` exactly when
`response.status === "000001"`. On a caught error it sets
`responseStatus = error.code || "500"` (the property access on the
exception, see `BaseTandaException.codeProp`) and
`responseMessage = error.message || "Unknown Error"` (an empty message is
falsy). -/
def C2B.applyOutcome (funding : TandaFunding)
    (result : Except BaseTandaException TandaAPIResponse) : TandaFunding :=
  match result with
  | Except.ok response =>
      { funding with
        jsonResponse := some (TandaAPIResponse.stringify response),
        responseStatus := some response.status,
        responseMessage := some response.message,
        transactionId := if response.status = "000001" then response.id else none }
  | Except.error e =>
      { funding with
        responseStatus := some ((BaseTandaException.codeProp e).getD "500"),
        responseMessage := some (if e.message = "" then "Unknown Error" else e.message) }

/-- `C2B.request(input)`: builds the wire payload with the freshly generated
`uuidv4()` reference (passed in as `reference`, drawn by the external uuid
library), initializes the funding record, delegates to `call` on the C2B
endpoint with the payload as `data` (no caller headers), and folds the
call's success or thrown exception into the funding record, which is always
returned. Returns the payload, the dispatched request and the funding. -/
def C2B.request (resultUrl : String) (endpoint : String)
    (accessToken : Option String) (reference : String) (input : IB2CRequest)
    (outcome : TransportOutcome TandaAPIResponse) :
    IC2BRequestPayload × DispatchedRequest × TandaFunding :=
  let parameters := C2B.buildPayload resultUrl reference input
  let funding := C2B.initFunding reference input
  let callResult := TandaClient.call TandaAPIResponse accessToken endpoint [] "POST" outcome
  (parameters, callResult.1, C2B.applyOutcome funding callResult.2)

/-! ## Carrier classification (src/requests/index.ts TandaHelper) -/

/-- `[0-9]` character class. -/
def isDigitChar (c : Char) : Bool :=
  ('0' ≤ c) && (c ≤ '9')

/-- All characters are digits. -/
def allDigits (l : List Char) : Bool :=
  l.all isDigitChar

/-- Head alternation of the safaricom regex:
`7(?:[01249][0-9]|5[789]|6[89])` or `1[1][0-5]` (three characters). -/
def safHead (a b c : Char) : Bool :=
  (a = '7' && (((b = '0' || b = '1' || b = '2' || b = '4' || b = '9') && isDigitChar c)
    || (b = '5' && (c = '7' || c = '8' || c = '9'))
    || (b = '6' && (c = '8' || c = '9'))))
  || (a = '1' && b = '1' && ('0' ≤ c && c ≤ '5'))

/-- Head alternation of the airtel regex:
`7(?:3[0-9]|5[0-6]|8[5-9])` or `1[0][0-2]` (three characters). -/
def airtelHead (a b c : Char) : Bool :=
  (a = '7' && ((b = '3' && isDigitChar c)
    || (b = '5' && ('0' ≤ c && c ≤ '6'))
    || (b = '8' && ('5' ≤ c && c ≤ '9'))))
  || (a = '1' && b = '0' && ('0' ≤ c && c ≤ '2'))

/-- A nine-character block: three head characters matching `head`, then six
digits. -/
def headBlock (head : Char → Char → Char → Bool) (l : List Char) : Bool :=
  match l with
  | [a, b, c, d1, d2, d3, d4, d5, d6] =>
      head a b c && allDigits [d1, d2, d3, d4, d5, d6]
  | _ => false

/-- `regex.test` for an end-anchored nine-character pattern `X[0-9]{6}$`
(the optional leading `(?:0)?` never affects whether a match exists): the
string's last nine characters form the block. -/
def endsWithBlock (head : Char → Char → Char → Bool) (s : String) : Bool :=
  let l := s.data
  headBlock head (l.drop (l.length - 9))

/-- `safaricom.test(msisdn)` for
`(?:0)?((?:7(?:[01249][0-9]|5[789]|6[89])|1[1][0-5])[0-9]\x7b6\x7d)$`. -/
def safaricomTest (msisdn : String) : Bool :=
  endsWithBlock safHead msisdn

/-- `airtel.test(msisdn)` for
`(?:0)?((?:7(?:3[0-9]|5[0-6]|8[5-9])|1[0][0-2])[0-9]\x7b6\x7d)$`. -/
def airtelTest (msisdn : String) : Bool :=
  endsWithBlock airtelHead msisdn

/-- Unanchored match of a fixed-shape block at the start of the list. -/
def telkomAt : List Char → Bool
  | '7' :: '7' :: rest => decide (7 ≤ rest.length) && allDigits (rest.take 7)
  | _ => false

/-- Match of the equitel block `76[3-6][0-9]\x7b6\x7d` at the start of the
list. -/
def equitelAt : List Char → Bool
  | '7' :: '6' :: c :: rest =>
      ('3' ≤ c && c ≤ '6') && decide (6 ≤ rest.length) && allDigits (rest.take 6)
  | _ => false

/-- Unanchored `regex.test`: the pattern matches at some position. -/
def scanMatch (p : List Char → Bool) : List Char → Bool
  | [] => p []
  | c :: rest => p (c :: rest) || scanMatch p rest

/-- `telkom.test(msisdn)` for the unanchored `(?:0)?(77[0-9][0-9]\x7b6\x7d)`
(the optional `0` never affects whether a match exists). -/
def telkomTest (msisdn : String) : Bool :=
  scanMatch telkomAt msisdn.data

/-- `equitel.test(msisdn)` for the unanchored `0?(76[3-6][0-9]\x7b6\x7d)`. -/
def equitelTest (msisdn : String) : Bool :=
  scanMatch equitelAt msisdn.data

/-- `TandaHelper.serviceProvider(msisdn, airtime)`: tests the four carrier
regexes in order safaricom, airtel, telkom, equitel, first match winning;
in airtime mode the equitel branch is absent and different codes are
returned; `"0"` when nothing matches. -/
def TandaHelper.serviceProvider (msisdn : String) (airtime : Bool) : String :=
  if !airtime then
    if safaricomTest msisdn then "MPESA"
    else if airtelTest msisdn then "AIRTELMONEY"
    else if telkomTest msisdn then "TKASH"
    else if equitelTest msisdn then "EQUITEL"
    else "0"
  else
    if safaricomTest msisdn then "SAFARICOM"
    else if airtelTest msisdn then "AIRTEL"
    else if telkomTest msisdn then "TELKOM"
    else "0"

/-! ## Specification-side predicates -/

/-- Modelled from the spec: a configuration is valid when `clientId` and
`clientSecret` have length at least 5 and `mode` is `uat` or `live`. Used
to compare the spec's validity condition with `ConfigSchema.parse`. -/
def specValidConfig (raw : RawConfig) : Bool :=
  decide (5 ≤ raw.clientId.length) && decide (5 ≤ raw.clientSecret.length) &&
    (decide (raw.mode = "uat") || decide (raw.mode = "live"))

/-! ## Helper lemmas -/

/-- `applyOutcome` never touches the identity fields of the funding record. -/
theorem C2B.applyOutcome_identity (funding : TandaFunding)
    (r : Except BaseTandaException TandaAPIResponse) :
    (C2B.applyOutcome funding r).fundReference = funding.fundReference ∧
    (C2B.applyOutcome funding r).serviceProvider = funding.serviceProvider ∧
    (C2B.applyOutcome funding r).accountNumber = funding.accountNumber ∧
    (C2B.applyOutcome funding r).amount = funding.amount := by
  cases r <;> simp [C2B.applyOutcome]

/-- The funding record returned by `request` always carries the generated
reference and the input's identity fields. -/
theorem C2B.request_identity (resultUrl endpoint : String)
    (accessToken : Option String) (reference : String) (input : IB2CRequest)
    (outcome : TransportOutcome TandaAPIResponse) :
    (C2B.request resultUrl endpoint accessToken reference input outcome).2.2.fundReference = reference ∧
    (C2B.request resultUrl endpoint accessToken reference input outcome).2.2.serviceProvider = input.serviceProviderId ∧
    (C2B.request resultUrl endpoint accessToken reference input outcome).2.2.accountNumber = input.mobileNumber ∧
    (C2B.request resultUrl endpoint accessToken reference input outcome).2.2.amount = input.amount := by
  have h := C2B.applyOutcome_identity (C2B.initFunding reference input)
    (TandaClient.call TandaAPIResponse accessToken endpoint [] "POST" outcome).2
  simpa [C2B.request, C2B.initFunding] using h

/-- On a failing transport outcome, `call` inside `request` rejects with the
`handleError` exception, and the catch branch of `request` applies. -/
theorem C2B.request_failure_shape (resultUrl endpoint : String)
    (accessToken : Option String) (reference : String) (input : IB2CRequest)
    (outcome : TransportOutcome TandaAPIResponse)
    (h : outcome.isFailure = true) :
    ∃ e : BaseTandaException,
      (C2B.request resultUrl endpoint accessToken reference input outcome).2.2 =
        C2B.applyOutcome (C2B.initFunding reference input) (Except.error e) := by
  cases outcome with
  | response status errMessage data =>
      have hv : validateStatus status = false := by
        simpa [TransportOutcome.isFailure] using h
      refine ⟨TandaClient.handleError
        { response := some { status := status, message := errMessage },
          hasRequest := true, message := "" }, ?_⟩
      simp [C2B.request, TandaClient.call, hv]
  | noResponse =>
      refine ⟨TandaClient.handleError
        { response := none, hasRequest := true, message := "" }, ?_⟩
      simp [C2B.request, TandaClient.call]
  | notSent m =>
      refine ⟨TandaClient.handleError
        { response := none, hasRequest := false, message := m }, ?_⟩
      simp [C2B.request, TandaClient.call]

/-! ## Claim theorems -/

/-- C1: the claim says the single exception type carries both the message
and the HTTP status code, and that `request()` folds the carried code into
`responseStatus` (falling back to "500" only when no code is carried). The
code contradicts this: the `BaseTandaException` constructor discards its
`code` argument, so `error.code` is always `undefined` and the fold always
lands on the "500" fallback. Evaluated at a concrete failing input: the
upstream responds with status 503, `handleError` passes 503 to the
constructor, yet the exception exposes no code and `request` records
`responseStatus = "500"`, not "503". -/
theorem c1_exception_code_not_carried :
    BaseTandaException.codeProp
        (TandaClient.handleError
          { response := some { status := 503, message := "Service Unavailable" },
            hasRequest := true, message := "" }) = none ∧
    (C2B.request "https://merchant.example/result" "io/v2/a/funding" none "ref-001"
        { serviceProviderId := "MPESA", merchantWallet := "W1",
          mobileNumber := "0712345678", amount := "100" }
        (TransportOutcome.response 503 "Service Unavailable"
          { status := "", message := "", id := none })).2.2.responseStatus = some "500" ∧
    some "500" ≠ some "503" := by
  refine ⟨rfl, rfl, by decide⟩

/-- C2: for every input and every transport outcome, `request` returns a
`TandaFunding` (it is a total function of the outcome — the thrown
exception is caught and folded into the record), and on any failing
outcome the returned record has non-null `responseStatus` and
`responseMessage` and null `transactionId`. -/
theorem c2_request_never_throws (resultUrl endpoint : String)
    (accessToken : Option String) (reference : String) (input : IB2CRequest)
    (outcome : TransportOutcome TandaAPIResponse)
    (h : outcome.isFailure = true) :
    ((C2B.request resultUrl endpoint accessToken reference input outcome).2.2.responseStatus).isSome = true ∧
    ((C2B.request resultUrl endpoint accessToken reference input outcome).2.2.responseMessage).isSome = true ∧
    (C2B.request resultUrl endpoint accessToken reference input outcome).2.2.transactionId = none := by
  obtain ⟨e, he⟩ := C2B.request_failure_shape resultUrl endpoint accessToken reference input outcome h
  rw [he]
  simp [C2B.applyOutcome, C2B.initFunding]

/-- Witness for C2 at a concrete failing outcome (no response received). -/
theorem c2_request_never_throws_witness :
    (TransportOutcome.noResponse : TransportOutcome TandaAPIResponse).isFailure = true ∧
    (((C2B.request "https://r" "io/v2/a/funding" none "ref-1"
        { serviceProviderId := "MPESA", merchantWallet := "W1",
          mobileNumber := "0712345678", amount := "100" }
        TransportOutcome.noResponse).2.2.responseStatus).isSome = true ∧
     ((C2B.request "https://r" "io/v2/a/funding" none "ref-1"
        { serviceProviderId := "MPESA", merchantWallet := "W1",
          mobileNumber := "0712345678", amount := "100" }
        TransportOutcome.noResponse).2.2.responseMessage).isSome = true ∧
     (C2B.request "https://r" "io/v2/a/funding" none "ref-1"
        { serviceProviderId := "MPESA", merchantWallet := "W1",
          mobileNumber := "0712345678", amount := "100" }
        TransportOutcome.noResponse).2.2.transactionId = none) :=
  ⟨by decide,
   c2_request_never_throws "https://r" "io/v2/a/funding" none "ref-1"
     { serviceProviderId := "MPESA", merchantWallet := "W1",
       mobileNumber := "0712345678", amount := "100" }
     TransportOutcome.noResponse (by decide)⟩

/-- C6: for every input, the wire payload built by `request` has the fixed
`commandId` literal, exactly the three request parameters in the fixed
order merchantWallet, accountNumber (the mobile number), amount, exactly
the one reference parameter resultUrl, id equal to label on every
parameter, and the freshly generated reference. -/
theorem c6_wire_payload_shape (resultUrl endpoint : String)
    (accessToken : Option String) (reference : String) (input : IB2CRequest)
    (outcome : TransportOutcome TandaAPIResponse) :
    (C2B.request resultUrl endpoint accessToken reference input outcome).1.commandId = "CustomerPayment" ∧
    (C2B.request resultUrl endpoint accessToken reference input outcome).1.serviceProviderId = input.serviceProviderId ∧
    (C2B.request resultUrl endpoint accessToken reference input outcome).1.requestParameters =
      [ { id := "merchantWallet", label := "merchantWallet", value := input.merchantWallet },
        { id := "accountNumber", label := "accountNumber", value := input.mobileNumber },
        { id := "amount", label := "amount", value := input.amount } ] ∧
    (C2B.request resultUrl endpoint accessToken reference input outcome).1.referenceParameters =
      [ { id := "resultUrl", label := "resultUrl", value := resultUrl } ] ∧
    (C2B.request resultUrl endpoint accessToken reference input outcome).1.reference = reference ∧
    ((C2B.request resultUrl endpoint accessToken reference input outcome).1.requestParameters.all
      (fun p => p.id == p.label)) = true ∧
    ((C2B.request resultUrl endpoint accessToken reference input outcome).1.referenceParameters.all
      (fun p => p.id == p.label)) = true := by
  refine ⟨rfl, rfl, rfl, rfl, rfl, ?_, ?_⟩ <;>
    simp [C2B.request, C2B.buildPayload]

/-- C3: for every upstream response that the call returns successfully
(status accepted by `validateStatus`), `request` sets `transactionId` to
`response.id` exactly when `response.status` is the literal "000001" and
leaves it null for any other status even when an id is present, and sets
`jsonResponse`, `responseStatus`, `responseMessage` from the serialized
response, `response.status` and `response.message`. -/
theorem c3_success_mapping (resultUrl endpoint : String)
    (accessToken : Option String) (reference : String) (input : IB2CRequest)
    (status : Nat) (errMessage : String) (response : TandaAPIResponse)
    (h : validateStatus status = true) :
    (C2B.request resultUrl endpoint accessToken reference input
        (TransportOutcome.response status errMessage response)).2.2.jsonResponse =
      some (TandaAPIResponse.stringify response) ∧
    (C2B.request resultUrl endpoint accessToken reference input
        (TransportOutcome.response status errMessage response)).2.2.responseStatus =
      some response.status ∧
    (C2B.request resultUrl endpoint accessToken reference input
        (TransportOutcome.response status errMessage response)).2.2.responseMessage =
      some response.message ∧
    (C2B.request resultUrl endpoint accessToken reference input
        (TransportOutcome.response status errMessage response)).2.2.transactionId =
      (if response.status = "000001" then response.id else none) ∧
    (response.status ≠ "000001" →
      (C2B.request resultUrl endpoint accessToken reference input
        (TransportOutcome.response status errMessage response)).2.2.transactionId = none) := by
  have hfold : (C2B.request resultUrl endpoint accessToken reference input
      (TransportOutcome.response status errMessage response)).2.2 =
      C2B.applyOutcome (C2B.initFunding reference input) (Except.ok response) := by
    simp [C2B.request, TandaClient.call, h]
  rw [hfold]
  refine ⟨rfl, rfl, rfl, rfl, fun hne => ?_⟩
  simp [C2B.applyOutcome, hne]

/-- Witness for C3: a 200 response with status "000001" and id "TXN1". -/
theorem c3_success_mapping_witness :
    validateStatus 200 = true ∧
    ((C2B.request "https://r" "io/v2/a/funding" (some "tok") "ref-1"
        { serviceProviderId := "MPESA", merchantWallet := "W1",
          mobileNumber := "0712345678", amount := "100" }
        (TransportOutcome.response 200 ""
          { status := "000001", message := "Request received successfully", id := some "TXN1" })).2.2.jsonResponse =
      some (TandaAPIResponse.stringify
        { status := "000001", message := "Request received successfully", id := some "TXN1" }) ∧
     (C2B.request "https://r" "io/v2/a/funding" (some "tok") "ref-1"
        { serviceProviderId := "MPESA", merchantWallet := "W1",
          mobileNumber := "0712345678", amount := "100" }
        (TransportOutcome.response 200 ""
          { status := "000001", message := "Request received successfully", id := some "TXN1" })).2.2.responseStatus =
      some (TandaAPIResponse.mk "000001" "Request received successfully" (some "TXN1")).status ∧
     (C2B.request "https://r" "io/v2/a/funding" (some "tok") "ref-1"
        { serviceProviderId := "MPESA", merchantWallet := "W1",
          mobileNumber := "0712345678", amount := "100" }
        (TransportOutcome.response 200 ""
          { status := "000001", message := "Request received successfully", id := some "TXN1" })).2.2.responseMessage =
      some (TandaAPIResponse.mk "000001" "Request received successfully" (some "TXN1")).message ∧
     (C2B.request "https://r" "io/v2/a/funding" (some "tok") "ref-1"
        { serviceProviderId := "MPESA", merchantWallet := "W1",
          mobileNumber := "0712345678", amount := "100" }
        (TransportOutcome.response 200 ""
          { status := "000001", message := "Request received successfully", id := some "TXN1" })).2.2.transactionId =
      (if (TandaAPIResponse.mk "000001" "Request received successfully" (some "TXN1")).status = "000001"
       then (TandaAPIResponse.mk "000001" "Request received successfully" (some "TXN1")).id else none) ∧
     ((TandaAPIResponse.mk "000001" "Request received successfully" (some "TXN1")).status ≠ "000001" →
      (C2B.request "https://r" "io/v2/a/funding" (some "tok") "ref-1"
        { serviceProviderId := "MPESA", merchantWallet := "W1",
          mobileNumber := "0712345678", amount := "100" }
        (TransportOutcome.response 200 ""
          { status := "000001", message := "Request received successfully", id := some "TXN1" })).2.2.transactionId = none)) :=
  ⟨by decide,
   c3_success_mapping "https://r" "io/v2/a/funding" (some "tok") "ref-1"
     { serviceProviderId := "MPESA", merchantWallet := "W1",
       mobileNumber := "0712345678", amount := "100" }
     200 "" { status := "000001", message := "Request received successfully", id := some "TXN1" }
     (by decide)⟩

/-- C9: the fund reference of the returned record is exactly the freshly
generated identifier handed to `request` (independent of the input and the
outcome), so two invocations whose generated references differ — as the
uuid v4 supplier guarantees — never share a `fundReference`, even on
identical input. -/
theorem c9_fresh_fund_reference (resultUrl endpoint : String)
    (accessToken : Option String) (r1 r2 : String) (i1 i2 : IB2CRequest)
    (o1 o2 : TransportOutcome TandaAPIResponse) (h : r1 ≠ r2) :
    (C2B.request resultUrl endpoint accessToken r1 i1 o1).2.2.fundReference = r1 ∧
    (C2B.request resultUrl endpoint accessToken r2 i2 o2).2.2.fundReference = r2 ∧
    (C2B.request resultUrl endpoint accessToken r1 i1 o1).2.2.fundReference ≠
      (C2B.request resultUrl endpoint accessToken r2 i2 o2).2.2.fundReference := by
  have h1 := (C2B.request_identity resultUrl endpoint accessToken r1 i1 o1).1
  have h2 := (C2B.request_identity resultUrl endpoint accessToken r2 i2 o2).1
  exact ⟨h1, h2, by rw [h1, h2]; exact h⟩

/-- Witness for C9: two concrete calls with identical input and distinct
generated references. -/
theorem c9_fresh_fund_reference_witness :
    ("11111111-1111-4111-8111-111111111111" : String) ≠ "22222222-2222-4222-8222-222222222222" ∧
    ((C2B.request "https://r" "io/v2/a/funding" none "11111111-1111-4111-8111-111111111111"
        { serviceProviderId := "MPESA", merchantWallet := "W1",
          mobileNumber := "0712345678", amount := "100" }
        TransportOutcome.noResponse).2.2.fundReference = "11111111-1111-4111-8111-111111111111" ∧
     (C2B.request "https://r" "io/v2/a/funding" none "22222222-2222-4222-8222-222222222222"
        { serviceProviderId := "MPESA", merchantWallet := "W1",
          mobileNumber := "0712345678", amount := "100" }
        TransportOutcome.noResponse).2.2.fundReference = "22222222-2222-4222-8222-222222222222" ∧
     (C2B.request "https://r" "io/v2/a/funding" none "11111111-1111-4111-8111-111111111111"
        { serviceProviderId := "MPESA", merchantWallet := "W1",
          mobileNumber := "0712345678", amount := "100" }
        TransportOutcome.noResponse).2.2.fundReference ≠
       (C2B.request "https://r" "io/v2/a/funding" none "22222222-2222-4222-8222-222222222222"
        { serviceProviderId := "MPESA", merchantWallet := "W1",
          mobileNumber := "0712345678", amount := "100" }
        TransportOutcome.noResponse).2.2.fundReference) :=
  ⟨by decide,
   c9_fresh_fund_reference "https://r" "io/v2/a/funding" none
     "11111111-1111-4111-8111-111111111111" "22222222-2222-4222-8222-222222222222"
     { serviceProviderId := "MPESA", merchantWallet := "W1",
       mobileNumber := "0712345678", amount := "100" }
     { serviceProviderId := "MPESA", merchantWallet := "W1",
       mobileNumber := "0712345678", amount := "100" }
     TransportOutcome.noResponse TransportOutcome.noResponse (by decide)⟩

/-- C10: on the failure path only `responseStatus` and `responseMessage`
are modified: `jsonResponse` and `transactionId` stay null, and the four
identity fields keep the values assigned from the generated reference and
the input before the call; on every path (success included) the four
identity fields are unchanged. -/
theorem c10_failure_frame (resultUrl endpoint : String)
    (accessToken : Option String) (reference : String) (input : IB2CRequest)
    (outcome : TransportOutcome TandaAPIResponse)
    (h : outcome.isFailure = true) :
    (C2B.request resultUrl endpoint accessToken reference input outcome).2.2.jsonResponse = none ∧
    (C2B.request resultUrl endpoint accessToken reference input outcome).2.2.transactionId = none ∧
    (C2B.request resultUrl endpoint accessToken reference input outcome).2.2.fundReference = reference ∧
    (C2B.request resultUrl endpoint accessToken reference input outcome).2.2.serviceProvider = input.serviceProviderId ∧
    (C2B.request resultUrl endpoint accessToken reference input outcome).2.2.accountNumber = input.mobileNumber ∧
    (C2B.request resultUrl endpoint accessToken reference input outcome).2.2.amount = input.amount ∧
    (∀ outcome2 : TransportOutcome TandaAPIResponse,
      (C2B.request resultUrl endpoint accessToken reference input outcome2).2.2.fundReference = reference ∧
      (C2B.request resultUrl endpoint accessToken reference input outcome2).2.2.serviceProvider = input.serviceProviderId ∧
      (C2B.request resultUrl endpoint accessToken reference input outcome2).2.2.accountNumber = input.mobileNumber ∧
      (C2B.request resultUrl endpoint accessToken reference input outcome2).2.2.amount = input.amount) := by
  obtain ⟨e, he⟩ := C2B.request_failure_shape resultUrl endpoint accessToken reference input outcome h
  have hid := C2B.request_identity resultUrl endpoint accessToken reference input outcome
  refine ⟨?_, ?_, hid.1, hid.2.1, hid.2.2.1, hid.2.2.2, ?_⟩
  · rw [he]; simp [C2B.applyOutcome, C2B.initFunding]
  · rw [he]; simp [C2B.applyOutcome, C2B.initFunding]
  · exact fun outcome2 => C2B.request_identity resultUrl endpoint accessToken reference input outcome2

/-- Witness for C10 at a concrete failing outcome (upstream status 503). -/
theorem c10_failure_frame_witness :
    (TransportOutcome.response 503 "Service Unavailable"
        (TandaAPIResponse.mk "" "" none)).isFailure = true ∧
    ((C2B.request "https://r" "io/v2/a/funding" none "ref-9"
        { serviceProviderId := "MPESA", merchantWallet := "W1",
          mobileNumber := "0712345678", amount := "100" }
        (TransportOutcome.response 503 "Service Unavailable"
          (TandaAPIResponse.mk "" "" none))).2.2.jsonResponse = none ∧
     (C2B.request "https://r" "io/v2/a/funding" none "ref-9"
        { serviceProviderId := "MPESA", merchantWallet := "W1",
          mobileNumber := "0712345678", amount := "100" }
        (TransportOutcome.response 503 "Service Unavailable"
          (TandaAPIResponse.mk "" "" none))).2.2.transactionId = none ∧
     (C2B.request "https://r" "io/v2/a/funding" none "ref-9"
        { serviceProviderId := "MPESA", merchantWallet := "W1",
          mobileNumber := "0712345678", amount := "100" }
        (TransportOutcome.response 503 "Service Unavailable"
          (TandaAPIResponse.mk "" "" none))).2.2.fundReference = "ref-9" ∧
     (C2B.request "https://r" "io/v2/a/funding" none "ref-9"
        { serviceProviderId := "MPESA", merchantWallet := "W1",
          mobileNumber := "0712345678", amount := "100" }
        (TransportOutcome.response 503 "Service Unavailable"
          (TandaAPIResponse.mk "" "" none))).2.2.serviceProvider =
       ({ serviceProviderId := "MPESA", merchantWallet := "W1",
          mobileNumber := "0712345678", amount := "100" } : IB2CRequest).serviceProviderId ∧
     (C2B.request "https://r" "io/v2/a/funding" none "ref-9"
        { serviceProviderId := "MPESA", merchantWallet := "W1",
          mobileNumber := "0712345678", amount := "100" }
        (TransportOutcome.response 503 "Service Unavailable"
          (TandaAPIResponse.mk "" "" none))).2.2.accountNumber =
       ({ serviceProviderId := "MPESA", merchantWallet := "W1",
          mobileNumber := "0712345678", amount := "100" } : IB2CRequest).mobileNumber ∧
     (C2B.request "https://r" "io/v2/a/funding" none "ref-9"
        { serviceProviderId := "MPESA", merchantWallet := "W1",
          mobileNumber := "0712345678", amount := "100" }
        (TransportOutcome.response 503 "Service Unavailable"
          (TandaAPIResponse.mk "" "" none))).2.2.amount =
       ({ serviceProviderId := "MPESA", merchantWallet := "W1",
          mobileNumber := "0712345678", amount := "100" } : IB2CRequest).amount ∧
     (∀ outcome2 : TransportOutcome TandaAPIResponse,
       (C2B.request "https://r" "io/v2/a/funding" none "ref-9"
          { serviceProviderId := "MPESA", merchantWallet := "W1",
            mobileNumber := "0712345678", amount := "100" } outcome2).2.2.fundReference = "ref-9" ∧
       (C2B.request "https://r" "io/v2/a/funding" none "ref-9"
          { serviceProviderId := "MPESA", merchantWallet := "W1",
            mobileNumber := "0712345678", amount := "100" } outcome2).2.2.serviceProvider =
         ({ serviceProviderId := "MPESA", merchantWallet := "W1",
            mobileNumber := "0712345678", amount := "100" } : IB2CRequest).serviceProviderId ∧
       (C2B.request "https://r" "io/v2/a/funding" none "ref-9"
          { serviceProviderId := "MPESA", merchantWallet := "W1",
            mobileNumber := "0712345678", amount := "100" } outcome2).2.2.accountNumber =
         ({ serviceProviderId := "MPESA", merchantWallet := "W1",
            mobileNumber := "0712345678", amount := "100" } : IB2CRequest).mobileNumber ∧
       (C2B.request "https://r" "io/v2/a/funding" none "ref-9"
          { serviceProviderId := "MPESA", merchantWallet := "W1",
            mobileNumber := "0712345678", amount := "100" } outcome2).2.2.amount =
         ({ serviceProviderId := "MPESA", merchantWallet := "W1",
            mobileNumber := "0712345678", amount := "100" } : IB2CRequest).amount)) :=
  ⟨by decide,
   c10_failure_frame "https://r" "io/v2/a/funding" none "ref-9"
     { serviceProviderId := "MPESA", merchantWallet := "W1",
       mobileNumber := "0712345678", amount := "100" }
     (TransportOutcome.response 503 "Service Unavailable"
       (TandaAPIResponse.mk "" "" none)) (by decide)⟩

/-- C4: the dispatched request carries `Authorization: Bearer <token>`
exactly when the client's access token is set (truthy) at call time; an
absent token leaves the headers without any Authorization entry (no empty
or malformed header), and the request is still dispatched with the given
url and method. -/
theorem c4_authorization_header (T : Type) (accessToken : Option String)
    (url : String) (callerHeaders : List (String × String)) (method : String)
    (outcome : TransportOutcome T)
    (h : "Authorization" ∉ callerHeaders.map Prod.fst) :
    (TandaClient.call T accessToken url callerHeaders method outcome).1.url = url ∧
    (TandaClient.call T accessToken url callerHeaders method outcome).1.method = method ∧
    (tokenTruthy accessToken = true →
      (TandaClient.call T accessToken url callerHeaders method outcome).1.headers =
        callerHeaders ++ [("Authorization", "Bearer " ++ accessToken.getD "")]) ∧
    (tokenTruthy accessToken = false →
      (TandaClient.call T accessToken url callerHeaders method outcome).1.headers = callerHeaders ∧
      "Authorization" ∉ ((TandaClient.call T accessToken url callerHeaders method outcome).1.headers).map Prod.fst) := by
  have hfilter : callerHeaders.filter (fun p => p.1 != "Authorization") = callerHeaders := by
    apply List.filter_eq_self.mpr
    intro a ha
    have hne : a.1 ≠ "Authorization" := fun hEq => h (hEq ▸ List.mem_map_of_mem Prod.fst ha)
    simpa using hne
  refine ⟨rfl, rfl, ?_, ?_⟩
  · intro ht
    cases accessToken with
    | none => simp [tokenTruthy] at ht
    | some t =>
      have htne : ¬(t = "") := by simpa [tokenTruthy] using ht
      simp [TandaClient.call, buildHeaders, htne, setHeader, hfilter]
  · intro hf
    cases accessToken with
    | none =>
        refine ⟨by simp [TandaClient.call, buildHeaders], ?_⟩
        simpa [TandaClient.call, buildHeaders] using h
    | some t =>
        have ht : t = "" := by simpa [tokenTruthy] using hf
        refine ⟨by simp [TandaClient.call, buildHeaders, ht], ?_⟩
        simpa [TandaClient.call, buildHeaders, ht] using h

/-- Witness for C4: a concrete call (the token-endpoint headers) with a set
token. -/
theorem c4_authorization_header_witness :
    ("Authorization" : String) ∉
      ([("Content-Type", "application/x-www-form-urlencoded")] : List (String × String)).map Prod.fst ∧
    ((TandaClient.call TandaAPIResponse (some "tok123") "accounts/v1/oauth/token"
        [("Content-Type", "application/x-www-form-urlencoded")] "POST"
        TransportOutcome.noResponse).1.url = "accounts/v1/oauth/token" ∧
     (TandaClient.call TandaAPIResponse (some "tok123") "accounts/v1/oauth/token"
        [("Content-Type", "application/x-www-form-urlencoded")] "POST"
        TransportOutcome.noResponse).1.method = "POST" ∧
     (tokenTruthy (some "tok123") = true →
       (TandaClient.call TandaAPIResponse (some "tok123") "accounts/v1/oauth/token"
          [("Content-Type", "application/x-www-form-urlencoded")] "POST"
          TransportOutcome.noResponse).1.headers =
         [("Content-Type", "application/x-www-form-urlencoded")] ++
           [("Authorization", "Bearer " ++ (some "tok123").getD "")]) ∧
     (tokenTruthy (some "tok123") = false →
       (TandaClient.call TandaAPIResponse (some "tok123") "accounts/v1/oauth/token"
          [("Content-Type", "application/x-www-form-urlencoded")] "POST"
          TransportOutcome.noResponse).1.headers =
         [("Content-Type", "application/x-www-form-urlencoded")] ∧
       "Authorization" ∉ ((TandaClient.call TandaAPIResponse (some "tok123") "accounts/v1/oauth/token"
          [("Content-Type", "application/x-www-form-urlencoded")] "POST"
          TransportOutcome.noResponse).1.headers).map Prod.fst)) :=
  ⟨by decide,
   c4_authorization_header TandaAPIResponse (some "tok123") "accounts/v1/oauth/token"
     [("Content-Type", "application/x-www-form-urlencoded")] "POST"
     TransportOutcome.noResponse (by decide)⟩

/-- C5 counterexample: the claim states that when a request is sent and no
response is received the raised error's message is "Gateway Timeout"; the
source throws `new BaseTandaException("Tanda APIs: Gateway Timeout", 504)`,
whose message merely embeds "Gateway Timeout". -/
theorem c5_gateway_message_counterexample :
    (TandaClient.call TandaAPIResponse none "io/v2/a/funding" [] "POST"
        (TransportOutcome.noResponse : TransportOutcome TandaAPIResponse)).2 =
      Except.error { message := "Tanda APIs: Gateway Timeout", codeArg := 504 } ∧
    ("Tanda APIs: Gateway Timeout" : String) ≠ "Gateway Timeout" := by
  exact ⟨rfl, by decide⟩

/-- C5 (amended): `call` returns the decoded body for every response with
status in [200,500]; on every failure it raises exactly the corresponding
one of the three normalized error kinds and never returns a value: an
upstream error response gives a message embedding the upstream message with
the upstream status as the constructor code argument; a sent request with
no response gives the message "Tanda APIs: Gateway Timeout" (embedding
"Gateway Timeout") with code argument 504; an unsendable request gives a
message embedding the local error message with code argument 500. -/
theorem c5_call_error_classification (T : Type) (accessToken : Option String)
    (url : String) (callerHeaders : List (String × String)) (method : String) :
    (∀ (status : Nat) (errMessage : String) (data : T),
      200 ≤ status ∧ status ≤ 500 →
      (TandaClient.call T accessToken url callerHeaders method
        (TransportOutcome.response status errMessage data)).2 = Except.ok data) ∧
    (∀ (status : Nat) (errMessage : String) (data : T),
      ¬(200 ≤ status ∧ status ≤ 500) →
      (TandaClient.call T accessToken url callerHeaders method
        (TransportOutcome.response status errMessage data)).2 =
        Except.error (BaseTandaException.make ("Tanda APIs Error: " ++ errMessage) status)) ∧
    ((TandaClient.call T accessToken url callerHeaders method
        TransportOutcome.noResponse).2 =
      Except.error (BaseTandaException.make "Tanda APIs: Gateway Timeout" 504)) ∧
    (∀ localMessage : String,
      (TandaClient.call T accessToken url callerHeaders method
        (TransportOutcome.notSent localMessage)).2 =
        Except.error (BaseTandaException.make ("Tanda APIs: " ++ localMessage) 500)) := by
  refine ⟨?_, ?_, rfl, fun localMessage => rfl⟩
  · intro status errMessage data hin
    have hv : validateStatus status = true := by
      simp [validateStatus, hin.1, hin.2]
    simp [TandaClient.call, hv]
  · intro status errMessage data hout
    have hv : validateStatus status = false := by
      simp only [validateStatus, Bool.and_eq_false_iff]
      rcases Decidable.not_and_iff_or_not.mp hout with h1 | h2
      · exact Or.inl (by simpa using h1)
      · exact Or.inr (by simpa using h2)
    simp [TandaClient.call, hv, TandaClient.handleError]

/-- Witness for C5 at concrete inputs: a 200 body is returned, a 503
response, a missing response and an unsendable request each raise their
error kind. -/
theorem c5_call_error_classification_witness :
    ((200 ≤ 200 ∧ 200 ≤ 500) ∧ ¬(200 ≤ 503 ∧ 503 ≤ 500)) ∧
    ((TandaClient.call String none "io/v2/a/funding" [] "POST"
        (TransportOutcome.response 200 "" "body")).2 = Except.ok "body" ∧
     (TandaClient.call String none "io/v2/a/funding" [] "POST"
        (TransportOutcome.response 503 "Service Unavailable" "x")).2 =
       Except.error (BaseTandaException.make "Tanda APIs Error: Service Unavailable" 503) ∧
     (TandaClient.call String none "io/v2/a/funding" [] "POST"
        (TransportOutcome.noResponse : TransportOutcome String)).2 =
       Except.error (BaseTandaException.make "Tanda APIs: Gateway Timeout" 504) ∧
     (TandaClient.call String none "io/v2/a/funding" [] "POST"
        (TransportOutcome.notSent "socket hang up")).2 =
       Except.error (BaseTandaException.make "Tanda APIs: socket hang up" 500)) :=
  ⟨⟨by decide, by decide⟩,
   (c5_call_error_classification String none "io/v2/a/funding" [] "POST").1
     200 "" "body" (by decide),
   (c5_call_error_classification String none "io/v2/a/funding" [] "POST").2.1
     503 "Service Unavailable" "x" (by decide),
   (c5_call_error_classification String none "io/v2/a/funding" [] "POST").2.2.1,
   (c5_call_error_classification String none "io/v2/a/funding" [] "POST").2.2.2
     "socket hang up"⟩

/-- C7: carrier classification tests the four patterns in the priority
order safaricom, airtel, telkom, equitel with the first match winning
(witnessed by "07763555555", which matches both the telkom and the equitel
patterns and classifies as telkom), skips the equitel pattern entirely in
airtime mode (the result is never "EQUITEL" and "0" is returned exactly
when the three participating patterns all fail), and returns the sentinel
"0" when no participating pattern matches; the claimed examples evaluate
as stated. -/
theorem c7_carrier_classification :
    TandaHelper.serviceProvider "0712345678" false = "MPESA" ∧
    TandaHelper.serviceProvider "0763123456" false = "EQUITEL" ∧
    TandaHelper.serviceProvider "0763123456" true = "0" ∧
    (TandaHelper.serviceProvider "0200000000" false = "0" ∧
     TandaHelper.serviceProvider "0200000000" true = "0") ∧
    (telkomTest "07763555555" = true ∧ equitelTest "07763555555" = true ∧
     TandaHelper.serviceProvider "07763555555" false = "TKASH") ∧
    (∀ m : String, TandaHelper.serviceProvider m true ≠ "EQUITEL") ∧
    (∀ m : String, TandaHelper.serviceProvider m false = "0" ↔
      (safaricomTest m = false ∧ airtelTest m = false ∧
       telkomTest m = false ∧ equitelTest m = false)) ∧
    (∀ m : String, TandaHelper.serviceProvider m true = "0" ↔
      (safaricomTest m = false ∧ airtelTest m = false ∧ telkomTest m = false)) := by
  refine ⟨by decide, by decide, by decide, ⟨by decide, by decide⟩,
    ⟨by decide, by decide, by decide⟩, ?_, ?_, ?_⟩
  · intro m
    unfold TandaHelper.serviceProvider
    cases hs : safaricomTest m <;> cases ha : airtelTest m <;> cases ht : telkomTest m <;>
      simp [hs, ha, ht]
  · intro m
    unfold TandaHelper.serviceProvider
    cases hs : safaricomTest m <;> cases ha : airtelTest m <;> cases ht : telkomTest m <;>
      cases he : equitelTest m <;> simp [hs, ha, ht, he]
  · intro m
    unfold TandaHelper.serviceProvider
    cases hs : safaricomTest m <;> cases ha : airtelTest m <;> cases ht : telkomTest m <;>
      simp [hs, ha, ht]

/-- C8: construction succeeds exactly for merged configurations with
`clientId` and `clientSecret` of length at least 5 and `mode` in
uat/live (the spec-side predicate `specValidConfig`), and on an invalid
configuration construction fails with no network call — in particular no
token fetch — ever issued; on a valid one the single issued call is the
background token fetch. -/
theorem c8_config_validation (raw : RawConfig) :
    (TandaClient.construct raw).2.isOk = specValidConfig raw ∧
    (TandaClient.construct raw).1 =
      (if specValidConfig raw = true
       then [NetworkCall.tokenFetch raw.clientId raw.clientSecret] else []) := by
  by_cases hu : raw.mode = "uat" <;> by_cases hl : raw.mode = "live" <;>
    rcases Nat.lt_or_ge raw.clientId.length 5 with hi | hi <;>
    rcases Nat.lt_or_ge raw.clientSecret.length 5 with hs | hs <;>
    simp [TandaClient.construct, ConfigSchema.parse, modeOfString, specValidConfig,
      hu, hl, hi, hs, Nat.not_le.mpr hi, Nat.not_le.mpr hs, Nat.not_lt.mpr hi, Nat.not_lt.mpr hs,
      Except.isOk, Except.toBool]
